import Mathlib

/-!
Shallow embedding of the data-preparation and filtering pipeline of the
NYC taxi dashboard (`src/app.py`).

Modelling conventions:
* Timestamps (`tpep_pickup_datetime`, `tpep_dropoff_datetime`) are whole
  seconds since 2024-01-01 00:00:00, so `'2024-01-01'` is `0` and
  `'2024-02-01'` is `31 * 86400`.  2024-01-01 is a Monday, so calendar
  day `d` has day-of-week index `d % 7` into the Monday-first week.
* Currency and distance columns are exact rationals (`ℚ`).
* A pandas missing value (NaN/NaT) in a column is `none`; pandas
  comparisons against a missing value are `false`, and the mean of an
  empty series is the missing value `none`.
* pandas `sort_values` and the sorted `groupby` keys are modelled with a
  stable insertion sort `sortBy` (stable sorting by a total preorder).
-/

namespace TaxiApp

/-- Code-point comparison of character lists (Python string ordering). -/
def charListLe : List Char → List Char → Bool
  | [], _ => true
  | _ :: _, [] => false
  | a :: as, b :: bs => if a < b then true else if b < a then false else charListLe as bs

/-- Code-point-lexicographic `≤` on strings, as Python compares `str`. -/
def strLe (a b : String) : Bool := charListLe a.data b.data

/-- Insert `a` into `l` before the first element `b` with `le a b`. -/
def insertLe (le : α → α → Bool) (a : α) : List α → List α
  | [] => [a]
  | b :: bs => if le a b then a :: b :: bs else b :: insertLe le a bs

/-- Stable sort by the total preorder `le` (insertion sort). -/
def sortBy (le : α → α → Bool) : List α → List α
  | [] => []
  | a :: as => insertLe le a (sortBy le as)

/-- One raw trip row of the monthly parquet extract.  Columns that the
cleaning pass may find missing are `Option`s. -/
structure RawTrip where
  tpep_pickup_datetime : Option Int
  tpep_dropoff_datetime : Option Int
  PULocationID : Option Int
  DOLocationID : Option Int
  fare_amount : Option ℚ
  trip_distance : Option ℚ
  total_amount : ℚ
  payment_type : Option Int
deriving DecidableEq

/-- A cleaned, enriched trip row (all required fields present, derived
columns added). -/
structure Trip where
  tpep_pickup_datetime : Int
  tpep_dropoff_datetime : Int
  PULocationID : Int
  DOLocationID : Int
  fare_amount : ℚ
  trip_distance : ℚ
  total_amount : ℚ
  payment_type : Option Int
  trip_duration_minutes : ℚ
  trip_speed_mph : ℚ
  pickup_hour : Int
  pickup_day_of_week : String
deriving DecidableEq

/-- A trip row together with the derived `payment_label` column. -/
structure LTrip where
  trip : Trip
  payment_label : String
deriving DecidableEq

/-- One row of the taxi zone lookup table. -/
structure ZoneRow where
  LocationID : Int
  Borough : String
  Zone : String
  service_zone : String
deriving DecidableEq

/-- `'2024-01-01'` in the timestamp model. -/
def monthStart : Int := 0

/-- `'2024-02-01'` in the timestamp model (January has 31 days). -/
def monthEnd : Int := 31 * 86400

/-- `.dt.date`: the calendar day index of a timestamp. -/
def dateOf (ts : Int) : Int := ts.fdiv 86400

/-- `.dt.hour`: the hour of day (0–23) of a timestamp. -/
def hourOf (ts : Int) : Int := (ts.emod 86400).fdiv 3600

/-- The Monday-first day ordering used by the heatmap. -/
def day_order : List String :=
  ["Monday", "Tuesday", "Wednesday", "Thursday", "Friday", "Saturday", "Sunday"]

/-- `.dt.day_name()`: day 0 (2024-01-01) is a Monday. -/
def dayNameOf (ts : Int) : String := day_order.getD ((dateOf ts).emod 7).toNat "Monday"

/-- `df.dropna(subset=[...])` row predicate: the five required columns
are present. -/
def dropna_ok (r : RawTrip) : Bool :=
  r.tpep_pickup_datetime.isSome && r.tpep_dropoff_datetime.isSome &&
  r.PULocationID.isSome && r.DOLocationID.isSome && r.fare_amount.isSome

/-- `df['trip_distance'] > 0` (false on a missing value, as in pandas). -/
def distance_pos (r : RawTrip) : Bool :=
  match r.trip_distance with
  | some d => decide (0 < d)
  | none => false

/-- `df['fare_amount'] > 0`. -/
def fare_pos (r : RawTrip) : Bool :=
  match r.fare_amount with
  | some f => decide (0 < f)
  | none => false

/-- `df['fare_amount'] <= 500`. -/
def fare_le_500 (r : RawTrip) : Bool :=
  match r.fare_amount with
  | some f => decide (f ≤ 500)
  | none => false

/-- `df['tpep_dropoff_datetime'] > df['tpep_pickup_datetime']`. -/
def dropoff_after_pickup (r : RawTrip) : Bool :=
  match r.tpep_pickup_datetime, r.tpep_dropoff_datetime with
  | some p, some d => decide (p < d)
  | _, _ => false

/-- `(df['tpep_pickup_datetime'] >= '2024-01-01') & (... < '2024-02-01')`. -/
def pickup_in_month (r : RawTrip) : Bool :=
  match r.tpep_pickup_datetime with
  | some p => decide (monthStart ≤ p) && decide (p < monthEnd)
  | none => false

/-- The exclusionary row filters of `load_data`, applied in source order. -/
def clean_rows (raws : List RawTrip) : List RawTrip :=
  (((((raws.filter dropna_ok).filter distance_pos).filter fare_pos).filter
    fare_le_500).filter dropoff_after_pickup).filter pickup_in_month

/-- The column derivations of `load_data` (duration, speed, hour, day name).
The five required columns are present on every row that survives
`dropna_ok`; the `getD` defaults are never read on cleaned rows. -/
def derive_columns (r : RawTrip) : Trip :=
  let pu := r.tpep_pickup_datetime.getD 0
  let dro := r.tpep_dropoff_datetime.getD 0
  let dur : ℚ := ((dro - pu : Int) : ℚ) / 60
  { tpep_pickup_datetime := pu
    tpep_dropoff_datetime := dro
    PULocationID := r.PULocationID.getD 0
    DOLocationID := r.DOLocationID.getD 0
    fare_amount := r.fare_amount.getD 0
    trip_distance := r.trip_distance.getD 0
    total_amount := r.total_amount
    payment_type := r.payment_type
    trip_duration_minutes := dur
    trip_speed_mph := if 0 < dur then r.trip_distance.getD 0 / (dur / 60) else 0
    pickup_hour := hourOf pu
    pickup_day_of_week := dayNameOf pu }

/-- The cleaning/enrichment pass of `load_data` on the raw extract. -/
def load_data (raws : List RawTrip) : List Trip :=
  (clean_rows raws).map derive_columns

/-- The `payment_labels` dict: a lookup that misses on any unmapped code. -/
def payment_labels (c : Int) : Option String :=
  if c = 1 then some "Credit Card"
  else if c = 2 then some "Cash"
  else if c = 3 then some "No Charge"
  else if c = 4 then some "Dispute"
  else if c = 5 then some "Unknown"
  else none

/-- `df['payment_type'].map(payment_labels).fillna('Other')` for one row:
a missing code or a lookup miss becomes `"Other"`. -/
def payment_label_of (c : Option Int) : String := (c.bind payment_labels).getD "Other"

/-- Adding the `payment_label` column to one row. -/
def add_payment_label (t : Trip) : LTrip := ⟨t, payment_label_of t.payment_type⟩

/-- Adding the `payment_label` column to the whole frame. -/
def with_payment_label (df : List Trip) : List LTrip := df.map add_payment_label

/-- The date-range normalisation: a two-element range is used as is, a
single-element input repeats its first date. -/
def resolve_date_range (dr : List Int) : Int × Int :=
  if dr.length == 2 then (dr.getD 0 0, dr.getD 1 0) else (dr.getD 0 0, dr.getD 0 0)

/-- The conjunctive row predicate of `filtered_df`. -/
def row_passes (start_date end_date startHour endHour : Int)
    (selected_payments : List String) (t : LTrip) : Bool :=
  decide (start_date ≤ dateOf t.trip.tpep_pickup_datetime) &&
  decide (dateOf t.trip.tpep_pickup_datetime ≤ end_date) &&
  decide (startHour ≤ t.trip.pickup_hour) &&
  decide (t.trip.pickup_hour ≤ endHour) &&
  selected_payments.contains t.payment_label

/-- The Filter Engine: `filtered_df = df[...]` with resolved bounds. -/
def filtered_df (start_date end_date startHour endHour : Int)
    (selected_payments : List String) (df : List LTrip) : List LTrip :=
  df.filter (row_passes start_date end_date startHour endHour selected_payments)

/-- The Filter Engine taking the raw `date_range` widget value (a one- or
two-element list of dates). -/
def filtered_df_input (date_range : List Int) (hour_range : Int × Int)
    (selected_payments : List String) (df : List LTrip) : List LTrip :=
  filtered_df (resolve_date_range date_range).1 (resolve_date_range date_range).2
    hour_range.1 hour_range.2 selected_payments df

/-- `Series.mean()`: the missing value (`none`, pandas NaN) on an empty
series, the exact mean otherwise. -/
def series_mean (l : List ℚ) : Option ℚ :=
  if l.length = 0 then none else some (l.sum / l.length)

/-- Fixed-point rendering of a finite value with `d` decimals,
approximating Python `format(x, '.df')` for the finite case. -/
def fmtFixed (d : Nat) (q : ℚ) : String :=
  let scale : ℚ := (10 : ℚ) ^ d
  let c : Int := round (q * scale)
  let n := c.natAbs
  let intPart := n / 10 ^ d
  let fracPart := n % 10 ^ d
  let sign := if c < 0 then "-" else ""
  if d = 0 then sign ++ toString intPart
  else sign ++ toString intPart ++ "." ++
    String.mk (List.replicate (d - (toString fracPart).length) '0') ++ toString fracPart

/-- Python string formatting of a possibly-missing float: pandas NaN
prints as `"nan"`. -/
def fmtOpt (d : Nat) : Option ℚ → String
  | none => "nan"
  | some q => fmtFixed d q

/-- The `Avg Fare` metric text: `f'${mean:.2f}'`. -/
def avgFareText (view : List LTrip) : String :=
  "$" ++ fmtOpt 2 (series_mean (view.map fun t => t.trip.fare_amount))

/-- The `Avg Distance` metric text: `f'{mean:.2f} mi'`. -/
def avgDistanceText (view : List LTrip) : String :=
  fmtOpt 2 (series_mean (view.map fun t => t.trip.trip_distance)) ++ " mi"

/-- The `Avg Duration` metric text: `f'{mean:.1f} min'`. -/
def avgDurationText (view : List LTrip) : String :=
  fmtOpt 1 (series_mean (view.map fun t => t.trip.trip_duration_minutes)) ++ " min"

/-- The `Total Revenue` sum: `filtered_df['total_amount'].sum()` (0 on an
empty view, as in pandas). -/
def totalRevenue (view : List LTrip) : ℚ :=
  (view.map fun t => t.trip.total_amount).sum

/-- `filtered_df.merge(zones, left_on='PULocationID', right_on='LocationID')`:
an inner join keeping left-frame order. -/
def merge_zones (df : List LTrip) (zones : List ZoneRow) : List (LTrip × ZoneRow) :=
  df.flatMap fun t => (zones.filter fun z => z.LocationID == t.trip.PULocationID).map fun z => (t, z)

/-- `.groupby('Zone').size()`: group keys sorted ascending (as pandas
sorts group keys), with the row count of each group. -/
def group_size_by_zone (m : List (LTrip × ZoneRow)) : List (String × Nat) :=
  (sortBy strLe (m.map fun p => p.2.Zone).dedup).map fun z =>
    (z, m.countP fun p => p.2.Zone == z)

/-- `.sort_values('total_trips', ascending=False)` as a stable descending
sort on the count. -/
def sort_values_desc (l : List (String × Nat)) : List (String × Nat) :=
  sortBy (fun a b => decide (b.2 ≤ a.2)) l

/-- The `top_zones` aggregate: join, group, count, sort descending, `head(10)`. -/
def top_zones (df : List LTrip) (zones : List ZoneRow) : List (String × Nat) :=
  (sort_values_desc (group_size_by_zone (merge_zones df zones))).take 10

/-- A minimal zone-lookup table with zones named `A`, `B`, `C`. -/
def zoneRowA : ZoneRow := ⟨1, "B1", "A", "S1"⟩

def zoneRowB : ZoneRow := ⟨2, "B2", "B", "S2"⟩

def zoneRowC : ZoneRow := ⟨3, "B3", "C", "S3"⟩

def exZones : List ZoneRow := [zoneRowA, zoneRowB, zoneRowC]

/-- A cleaned, labelled trip with the given pickup location id. -/
def mkLTrip (puId : Int) : LTrip :=
  add_payment_label (derive_columns ⟨some 0, some 600, some puId, some 1, some 10, some 2, 12, some 1⟩)

/-- Five trips from zone `A`, three from `B`, three from `C`. -/
def exTrips : List LTrip :=
  List.replicate 5 (mkLTrip 1) ++ List.replicate 3 (mkLTrip 2) ++ List.replicate 3 (mkLTrip 3)

/-- Two trips, one of which has a pickup location id (99) absent from the
zone lookup table. -/
def exOrphanTrips : List LTrip := [mkLTrip 1, mkLTrip 99]

def rGood : RawTrip := ⟨some 3600, some 4200, some 7, some 8, some (29/2 : ℚ), some (3/2 : ℚ), 20, some 2⟩

def rNeg : RawTrip := ⟨some 60, some 0, some 1, some 1, some 10, some 2, 12, some 1⟩

def rPos : RawTrip := ⟨some 0, some 600, some 1, some 1, some 10, some 2, 12, some 1⟩

theorem mem_insertLe (le : α → α → Bool) (a x : α) :
    ∀ (l : List α), x ∈ insertLe le a l ↔ x = a ∨ x ∈ l := by
  intro l
  induction l with
  | nil => simp [insertLe]
  | cons b bs ih =>
    by_cases h : le a b = true
    · simp [insertLe, h]
    · simp only [insertLe, if_neg h, List.mem_cons, ih]
      tauto

theorem insertLe_pairwise (le : α → α → Bool)
    (total : ∀ a b, le a b || le b a)
    (htrans : ∀ a b c, le a b = true → le b c = true → le a c = true)
    (a : α) :
    ∀ {l : List α}, l.Pairwise (fun x y => le x y = true) →
      (insertLe le a l).Pairwise (fun x y => le x y = true) := by
  intro l
  induction l with
  | nil => simp [insertLe]
  | cons b bs ih =>
    intro h
    rcases List.pairwise_cons.mp h with ⟨hb, hbs⟩
    by_cases hc : le a b = true
    · simp only [insertLe, if_pos hc]
      refine List.pairwise_cons.mpr ⟨?_, h⟩
      intro x hx
      rcases List.mem_cons.mp hx with rfl | hx
      · exact hc
      · exact htrans a b x hc (hb x hx)
    · simp only [insertLe, if_neg hc]
      refine List.pairwise_cons.mpr ⟨?_, ih hbs⟩
      intro x hx
      rcases (mem_insertLe le a x bs).mp hx with rfl | hx
      · have := total x b
        simp [hc] at this
        exact this
      · exact hb x hx

theorem sortBy_pairwise (le : α → α → Bool)
    (total : ∀ a b, le a b || le b a)
    (htrans : ∀ a b c, le a b = true → le b c = true → le a c = true) :
    ∀ (l : List α), (sortBy le l).Pairwise (fun x y => le x y = true) := by
  intro l
  induction l with
  | nil => simp [sortBy]
  | cons a as ih => exact insertLe_pairwise le total htrans a ih

/-- C1: every record in the cleaned snapshot produced by `load_data` has
positive distance, a fare in (0, 500], dropoff strictly after pickup, a
pickup timestamp inside the configured calendar-month window, and comes
from a raw row whose five required fields are all present. -/
theorem load_data_invariants (raws : List RawTrip) (t : Trip) (ht : t ∈ load_data raws) :
    0 < t.trip_distance ∧ 0 < t.fare_amount ∧ t.fare_amount ≤ 500 ∧
    t.tpep_pickup_datetime < t.tpep_dropoff_datetime ∧
    monthStart ≤ t.tpep_pickup_datetime ∧ t.tpep_pickup_datetime < monthEnd ∧
    ∃ r ∈ raws, dropna_ok r = true ∧ t = derive_columns r := by
  simp only [load_data, List.mem_map] at ht
  obtain ⟨r, hr, heq⟩ := ht
  simp only [clean_rows, List.mem_filter] at hr
  obtain ⟨⟨⟨⟨⟨⟨hraw, hna⟩, hdist⟩, hfare⟩, hcap⟩, hdp⟩, hm⟩ := hr
  rcases r with ⟨opu, odro, opul, odol, ofare, odist, tot, pay⟩
  rcases opu with _ | pu
  · simp [dropna_ok] at hna
  rcases odro with _ | dro
  · simp [dropna_ok] at hna
  rcases opul with _ | pul
  · simp [dropna_ok] at hna
  rcases odol with _ | dol
  · simp [dropna_ok] at hna
  rcases ofare with _ | fare
  · simp [dropna_ok] at hna
  rcases odist with _ | dist
  · simp [distance_pos] at hdist
  simp only [distance_pos, decide_eq_true_eq] at hdist
  simp only [fare_pos, decide_eq_true_eq] at hfare
  simp only [fare_le_500, decide_eq_true_eq] at hcap
  simp only [dropoff_after_pickup, decide_eq_true_eq] at hdp
  simp only [pickup_in_month, Bool.and_eq_true, decide_eq_true_eq] at hm
  subst heq
  refine ⟨?_, ?_, ?_, ?_, ?_, ?_, ?_⟩
  · simpa [derive_columns] using hdist
  · simpa [derive_columns] using hfare
  · simpa [derive_columns] using hcap
  · simpa [derive_columns] using hdp
  · simpa [derive_columns] using hm.1
  · simpa [derive_columns] using hm.2
  · exact ⟨_, hraw, hna, rfl⟩

/-- Witness for C1 at a concrete raw row that survives cleaning. -/
theorem load_data_invariants_witness :
    0 < (derive_columns rGood).trip_distance ∧ 0 < (derive_columns rGood).fare_amount ∧
    (derive_columns rGood).fare_amount ≤ 500 ∧
    (derive_columns rGood).tpep_pickup_datetime < (derive_columns rGood).tpep_dropoff_datetime ∧
    monthStart ≤ (derive_columns rGood).tpep_pickup_datetime ∧
    (derive_columns rGood).tpep_pickup_datetime < monthEnd ∧
    ∃ r ∈ [rGood], dropna_ok r = true ∧ derive_columns rGood = derive_columns r :=
  load_data_invariants [rGood] (derive_columns rGood) (by
    have h : clean_rows [rGood] = [rGood] := by
      simp [clean_rows, rGood, dropna_ok, distance_pos, fare_pos, fare_le_500,
        dropoff_after_pickup, pickup_in_month, monthStart, monthEnd]
      norm_num
    simp [load_data, h])

/-- C2: for any cleaned dataset, inclusive date range, inclusive hour
range within 0–23, and payment-label set, a record is in the Filter
Engine output iff it is in the input and its pickup date, pickup hour
and payment label satisfy all three predicates. -/
theorem filtered_df_mem (df : List LTrip) (start_date end_date startHour endHour : Int)
    (selected_payments : List String)
    (hsh : 0 ≤ startHour) (hhe : startHour ≤ endHour) (heh : endHour ≤ 23) (t : LTrip) :
    t ∈ filtered_df start_date end_date startHour endHour selected_payments df ↔
      t ∈ df ∧
      (start_date ≤ dateOf t.trip.tpep_pickup_datetime ∧
        dateOf t.trip.tpep_pickup_datetime ≤ end_date) ∧
      (startHour ≤ t.trip.pickup_hour ∧ t.trip.pickup_hour ≤ endHour) ∧
      t.payment_label ∈ selected_payments := by
  simp [filtered_df, row_passes, List.mem_filter, and_assoc]

/-- Witness for C2 at a concrete record and concrete filter bounds. -/
theorem filtered_df_mem_witness :
    mkLTrip 1 ∈ filtered_df 0 30 0 23 ["Credit Card"] [mkLTrip 1] ↔
      mkLTrip 1 ∈ [mkLTrip 1] ∧
      (0 ≤ dateOf (mkLTrip 1).trip.tpep_pickup_datetime ∧
        dateOf (mkLTrip 1).trip.tpep_pickup_datetime ≤ 30) ∧
      (0 ≤ (mkLTrip 1).trip.pickup_hour ∧ (mkLTrip 1).trip.pickup_hour ≤ 23) ∧
      (mkLTrip 1).payment_label ∈ ["Credit Card"] :=
  filtered_df_mem [mkLTrip 1] 0 30 0 23 ["Credit Card"] (by decide) (by decide) (by decide) (mkLTrip 1)

/-- C5: the derived trip speed is 0 whenever the derived duration is
≤ 0, otherwise exactly distance / (duration/60); the duration equals
(dropoff − pickup) seconds divided by 60. -/
theorem trip_speed_spec (r : RawTrip) :
    ((derive_columns r).trip_duration_minutes ≤ 0 → (derive_columns r).trip_speed_mph = 0) ∧
    (0 < (derive_columns r).trip_duration_minutes →
      (derive_columns r).trip_speed_mph =
        (derive_columns r).trip_distance / ((derive_columns r).trip_duration_minutes / 60)) ∧
    (derive_columns r).trip_duration_minutes =
      ((r.tpep_dropoff_datetime.getD 0 - r.tpep_pickup_datetime.getD 0 : Int) : ℚ) / 60 := by
  refine ⟨fun h => ?_, fun h => ?_, rfl⟩
  · simp only [derive_columns] at h ⊢
    rw [if_neg (not_lt.mpr h)]
  · simp only [derive_columns] at h ⊢
    rw [if_pos h]

/-- Witness for C5 at a record with negative duration and a record
with positive duration. -/
theorem trip_speed_spec_witness :
    (derive_columns rNeg).trip_speed_mph = 0 ∧
    (derive_columns rPos).trip_speed_mph =
      (derive_columns rPos).trip_distance / ((derive_columns rPos).trip_duration_minutes / 60) :=
  ⟨(trip_speed_spec rNeg).1 (by norm_num [derive_columns, rNeg]),
   (trip_speed_spec rPos).2.1 (by norm_num [derive_columns, rPos])⟩

/-- C6: the payment-label mapping sends codes 1–5 to their fixed
labels, any other or missing code (e.g. 99) to "Other", and adding the
label column leaves the underlying trip row unchanged. -/
theorem payment_label_spec :
    payment_label_of (some 1) = "Credit Card" ∧
    payment_label_of (some 2) = "Cash" ∧
    payment_label_of (some 3) = "No Charge" ∧
    payment_label_of (some 4) = "Dispute" ∧
    payment_label_of (some 5) = "Unknown" ∧
    payment_label_of (some 99) = "Other" ∧
    payment_label_of none = "Other" ∧
    (∀ c : Int, c ≠ 1 → c ≠ 2 → c ≠ 3 → c ≠ 4 → c ≠ 5 →
      payment_label_of (some c) = "Other") ∧
    ∀ t : Trip, (add_payment_label t).trip = t := by
  refine ⟨by decide, by decide, by decide, by decide, by decide, by decide, by decide, ?_, fun t => rfl⟩
  intro c h1 h2 h3 h4 h5
  simp [payment_label_of, payment_labels, h1, h2, h3, h4, h5]

/-- Witness for C6: the unmapped code 7 is labelled "Other". -/
theorem payment_label_spec_witness : payment_label_of (some 7) = "Other" :=
  payment_label_spec.2.2.2.2.2.2.2.1 7 (by decide) (by decide) (by decide) (by decide) (by decide)

/-- C7: filtering with the empty payment-label set yields the empty
view for every date range and hour range. -/
theorem empty_payments_yield_empty (start_date end_date startHour endHour : Int) (df : List LTrip) :
    filtered_df start_date end_date startHour endHour [] df = [] := by
  simp [filtered_df, List.filter_eq_nil_iff, row_passes]

/-- C8: a single supplied date `d` behaves exactly like the two-element
range `[d, d]` for every hour range, payment set and dataset. -/
theorem single_date_spec (d : Int) (hour_range : Int × Int) (selected_payments : List String)
    (df : List LTrip) :
    filtered_df_input [d] hour_range selected_payments df =
      filtered_df_input [d, d] hour_range selected_payments df := rfl

/-- C9: the Filter Engine is idempotent: filtering an already-filtered
view with the same predicates returns it unchanged. -/
theorem filtered_df_idempotent (start_date end_date startHour endHour : Int)
    (selected_payments : List String) (df : List LTrip) :
    filtered_df start_date end_date startHour endHour selected_payments
        (filtered_df start_date end_date startHour endHour selected_payments df) =
      filtered_df start_date end_date startHour endHour selected_payments df := by
  simp [filtered_df, List.filter_filter]

/-- C3: the Top-N pickup-zone aggregate is sorted by trip count
descending, and on zone counts A:5, B:3, C:3 the output is
[A:5, B:3, C:3], so the top-2 is [A:5, B:3] with B before C
(tie broken by zone name ascending). -/
theorem top_zones_spec :
    (∀ (df : List LTrip) (zones : List ZoneRow),
      (top_zones df zones).Pairwise (fun a b => b.2 ≤ a.2)) ∧
    top_zones exTrips exZones = [("A", 5), ("B", 3), ("C", 3)] ∧
    (top_zones exTrips exZones).take 2 = [("A", 5), ("B", 3)] := by
  refine ⟨?_, by decide, by decide⟩
  intro df zones
  have h := sortBy_pairwise (fun a b : String × Nat => decide (b.2 ≤ a.2))
    (fun a b => by simpa using Nat.le_total b.2 a.2)
    (fun a b c hab hbc => by
      simp only [decide_eq_true_eq] at hab hbc ⊢
      omega)
    (group_size_by_zone (merge_zones df zones))
  have h2 : (sort_values_desc (group_size_by_zone (merge_zones df zones))).Pairwise
      (fun a b : String × Nat => b.2 ≤ a.2) := by
    refine List.Pairwise.imp ?_ h
    intro a b hab
    simpa using hab
  exact h2.sublist (List.take_sublist _ _)

theorem merge_zones_cons (t : LTrip) (ts : List LTrip) (zones : List ZoneRow) :
    merge_zones (t :: ts) zones =
      ((zones.filter fun z => z.LocationID == t.trip.PULocationID).map fun z => (t, z)) ++
        merge_zones ts zones := by
  simp [merge_zones]

/-- C10: the zone join has inner-join semantics: trips whose pickup
location id has no entry in the zone lookup contribute nothing, and on
a concrete dataset with such a trip the zone counts sum to less than
the filtered trip count. -/
theorem merge_zones_inner :
    (∀ (df : List LTrip) (zones : List ZoneRow),
      merge_zones df zones =
        merge_zones (df.filter fun t => zones.any fun z => z.LocationID == t.trip.PULocationID)
          zones) ∧
    ((group_size_by_zone (merge_zones exOrphanTrips exZones)).map Prod.snd).sum <
      exOrphanTrips.length := by
  refine ⟨?_, by decide⟩
  intro df zones
  induction df with
  | nil => rfl
  | cons t ts ih =>
    rw [List.filter_cons]
    by_cases h : (zones.any fun z => z.LocationID == t.trip.PULocationID) = true
    · rw [if_pos h, merge_zones_cons, merge_zones_cons, ih]
    · have hz : (zones.filter fun z => z.LocationID == t.trip.PULocationID) = [] := by
        rw [List.filter_eq_nil_iff]
        rw [Bool.not_eq_true] at h
        exact fun z hzz => by simpa using List.any_eq_false.mp h z hzz
      rw [if_neg h, merge_zones_cons, hz]
      simpa using ih

/-- C4 counterexample: on the empty filtered view the mean metrics are
rendered through NaN as "$nan" / "nan mi" / "nan min", not as an
explicit "no data" state. -/
theorem empty_metrics_counterexample :
    avgFareText [] = "$nan" ∧ avgFareText [] ≠ "no data" ∧
    avgDistanceText [] = "nan mi" ∧ avgDurationText [] = "nan min" :=
  ⟨by decide, by decide, by decide, by decide⟩

/-- C4 amended: computing the scalar metrics on the empty filtered view
is total (never raises), the count is 0, each mean is the missing value
(pandas NaN, modelled `none`), the revenue sum is 0, and the means are
formatted into the metric strings as "nan", not as a "no data" state. -/
theorem empty_metrics_amended :
    ([] : List LTrip).length = 0 ∧
    series_mean (([] : List LTrip).map fun t => t.trip.fare_amount) = none ∧
    series_mean (([] : List LTrip).map fun t => t.trip.trip_distance) = none ∧
    series_mean (([] : List LTrip).map fun t => t.trip.trip_duration_minutes) = none ∧
    totalRevenue [] = 0 ∧
    avgFareText [] = "$nan" ∧ avgDistanceText [] = "nan mi" ∧ avgDurationText [] = "nan min" :=
  ⟨rfl, rfl, rfl, rfl, rfl, by decide, by decide, by decide⟩

end TaxiApp
